import Mathlib

set_option maxRecDepth 100000

unseal Rat.add Rat.sub Rat.mul Rat.inv

/-!
# Verification of the InsightBot analytics app (`src/app.py`)

A shallow embedding of the pure query-routing and data-analysis logic of
`app.py`:

* `generate_sql_query` — keyword-template router (Python `if/elif` chain over
  substring tests on the lowercased question);
* `analyze_data` — summary / insight / visualization-suggestion builder over a
  dataframe, modelled as a row count plus a list of typed columns with rational
  values (pandas `mean` of an empty column is `NaN`, which `"{:,.2f}".format`
  renders as the string "nan"; the embedding reproduces that rendering);
* `create_visualization` — dispatch on the lowercased chart type to one of
  four figure constructors.
-/

/-- Python `needle.startswith`-style check on char lists:
does the second list start with the first? -/
def charsStart : List Char → List Char → Bool
  | [], _ => true
  | _ :: _, [] => false
  | p :: ps, c :: cs => p == c && charsStart ps cs

/-- Python `pat in s` on char lists: does `pat` occur contiguously in `s`? -/
def charsHasSub (pat : List Char) : List Char → Bool
  | [] => charsStart pat []
  | c :: cs => charsStart pat (c :: cs) || charsHasSub pat cs

/-- Python's `pat in s` substring test for strings. -/
def strContains (s pat : String) : Bool :=
  charsHasSub pat.toList s.toList

/-- Python's `str.lower()` (ASCII-relevant part). -/
def lowerStr (s : String) : String :=
  String.mk (s.toList.map Char.toLower)

/-- The hardcoded SQL returned by the "top/best products" branch of
`generate_sql_query` (app.py lines 48-57). -/
def topProductsSQL : String :=
  "\n                SELECT p.name as product_name, \n                       SUM(s.quantity) as total_quantity,\n                       SUM(s.total_amount) as total_sales\n                FROM sales s\n                JOIN products p ON s.product_id = p.product_id\n                GROUP BY p.product_id, p.name\n                ORDER BY total_sales DESC\n                LIMIT 5\n                "

/-- The hardcoded SQL returned by the "sales by region" branch
(app.py lines 59-67). -/
def salesByRegionSQL : String :=
  "\n            SELECT c.region, \n                   SUM(s.total_amount) as total_sales,\n                   COUNT(DISTINCT s.customer_id) as customer_count\n            FROM sales s\n            JOIN customers c ON s.customer_id = c.customer_id\n            GROUP BY c.region\n            ORDER BY total_sales DESC\n            "

/-- The hardcoded SQL returned by the "all products" branch
(app.py lines 69-76). -/
def allProductsSQL : String :=
  "\n            SELECT p.name, \n                   p.category,\n                   p.price,\n                   p.stock\n            FROM products p\n            ORDER BY p.category, p.name\n            "

/-- The hardcoded SQL returned by the "customer spending" branch
(app.py lines 78-87). -/
def customerSpendingSQL : String :=
  "\n            SELECT c.name as customer_name,\n                   c.region,\n                   SUM(s.total_amount) as total_spent\n            FROM sales s\n            JOIN customers c ON s.customer_id = c.customer_id\n            GROUP BY c.customer_id, c.name, c.region\n            ORDER BY total_spent DESC\n            LIMIT 10\n            "

/-- The hardcoded SQL returned by the default (`else`) branch
(app.py lines 90-100). -/
def defaultSQL : String :=
  "\n            SELECT p.name as product_name,\n                   p.category,\n                   COUNT(*) as number_of_sales,\n                   SUM(s.quantity) as total_quantity,\n                   SUM(s.total_amount) as total_revenue\n            FROM sales s\n            JOIN products p ON s.product_id = p.product_id\n            GROUP BY p.product_id, p.name, p.category\n            ORDER BY total_revenue DESC\n            "

/-- The five template strings that occur as `return` values in
`generate_sql_query`. -/
def sqlTemplates : List String :=
  [topProductsSQL, salesByRegionSQL, allProductsSQL, customerSpendingSQL,
   defaultSQL]

/-- `generate_sql_query` from app.py lines 32-103.  The Python body is an
`if/elif/.../else` chain over substring tests on `question.lower()`.  When the
outer `"top" in q or "best" in q` test succeeds but the nested
`"products" in q or "product" in q` test fails, control falls off the end of
the function body (the `elif`/`else` arms belong to the outer `if`), so Python
returns `None`; the `except` arm is unreachable because no statement in the
`try` block can raise. -/
def generate_sql_query (question : String) : Option String :=
  let question_lower := lowerStr question
  if strContains question_lower "top" || strContains question_lower "best" then
    if strContains question_lower "products" ||
        strContains question_lower "product" then
      some topProductsSQL
    else
      none
  else if strContains question_lower "sales by region" then
    some salesByRegionSQL
  else if strContains question_lower "all products" then
    some allProductsSQL
  else if strContains question_lower "customer" &&
      strContains question_lower "spending" then
    some customerSpendingSQL
  else
    some defaultSQL

/-- Floor of a rational as an integer (explicit, kernel-computable form). -/
def ratFloor (x : ℚ) : ℤ :=
  x.num.fdiv x.den

/-- Round a rational to the nearest integer, ties to even (the rounding used
by Python's fixed-point float formatting). -/
def roundHalfEven (x : ℚ) : ℤ :=
  let f := ratFloor x
  let frac := x - (f : ℚ)
  if frac < 1 / 2 then f
  else if 1 / 2 < frac then f + 1
  else if f % 2 = 0 then f else f + 1

/-- Split a digit list (least-significant digit first) into groups of three. -/
def chunk3 : List Char → List (List Char)
  | [] => []
  | [a] => [[a]]
  | [a, b] => [[a, b]]
  | a :: b :: c :: rest => [a, b, c] :: chunk3 rest

/-- Insert a thousands separator every three digits of a decimal digit
string. -/
def groupDigits (digits : List Char) : List Char :=
  (List.intercalate [','] (chunk3 digits.reverse)).reverse

/-- Python's `"{:,.2f}".format` applied to a rational value: round to cents
(ties to even), thousands separators in the integer part, exactly two decimal
digits. -/
def fmtComma2 (x : ℚ) : String :=
  let cents := roundHalfEven (x * 100)
  let sign := if cents < 0 then "-" else ""
  let a := cents.natAbs
  let intPart := groupDigits (Nat.repr (a / 100)).toList
  let fracPart := [Char.ofNat (48 + a % 100 / 10), Char.ofNat (48 + a % 10)]
  sign ++ String.mk intPart ++ "." ++ String.mk fracPart

/-- `"{:,.2f}".format(series.mean())` for a column of values: pandas `mean`
of an empty column is `NaN`, and Python renders `NaN` through this format as
the string "nan". -/
def fmtMean (values : List ℚ) : String :=
  if values.length = 0 then "nan"
  else fmtComma2 (values.sum / (values.length : ℚ))

/-- The pandas column dtypes distinguished by `select_dtypes` in
`analyze_data`: `int64`/`float64` are selected as numeric, `object` as
categorical, and every other dtype (dates, booleans, ...) by neither call. -/
inductive Dtype
  | int64
  | float64
  | object
  | datetime64
  | boolean
  deriving DecidableEq, Repr

/-- Is the dtype selected by `select_dtypes(include=['int64', 'float64'])`? -/
def isNumericDtype : Dtype → Bool
  | .int64 => true
  | .float64 => true
  | _ => false

/-- Is the dtype selected by `select_dtypes(include=['object'])`? -/
def isObjectDtype : Dtype → Bool
  | .object => true
  | _ => false

/-- A dataframe column: a name, a dtype, and the numeric view of its cells.
The modelled code reads cell values only from numeric columns, so the values
of `object`/`datetime64`/`boolean` columns are immaterial. -/
structure Column where
  name : String
  dtype : Dtype
  values : List ℚ
  deriving DecidableEq, Repr

/-- A dataframe: its row count (`len(df)`) and its columns in order. -/
structure Frame where
  nrows : ℕ
  cols : List Column
  deriving DecidableEq, Repr

/-- A visualization suggestion dictionary as built by `analyze_data`
(keys `type`, `x`, `y`, `title`). -/
structure VizSpec where
  type : String
  x : String
  y : String
  title : String
  deriving DecidableEq, Repr

/-- The dictionary returned by `analyze_data`
(keys `analysis`, `insights`, `visualizations`). -/
structure AnalysisResult where
  analysis : String
  insights : List String
  visualizations : List VizSpec
  deriving DecidableEq, Repr

/-- `f"- Total {col}: {total:,.2f}"` (app.py line 124). -/
def totalLine (c : Column) : String :=
  "- Total " ++ c.name ++ ": " ++ fmtComma2 c.values.sum

/-- `f"- Average {col}: {avg:,.2f}"` (app.py line 125). -/
def averageLine (c : Column) : String :=
  "- Average " ++ c.name ++ ": " ++ fmtMean c.values

/-- `f"Total {col} is {total:,.2f}"` (app.py line 129). -/
def totalInsight (c : Column) : String :=
  "Total " ++ c.name ++ " is " ++ fmtComma2 c.values.sum

/-- `f"Average {col} per record is {avg:,.2f}"` (app.py line 130). -/
def averageInsight (c : Column) : String :=
  "Average " ++ c.name ++ " per record is " ++ fmtMean c.values

/-- The guard `"amount" in col.lower() or "sales" in col.lower()`
(app.py line 128). -/
def insightWorthy (c : Column) : Bool :=
  strContains (lowerStr c.name) "amount" || strContains (lowerStr c.name) "sales"

/-- Python's `"\n".join(lines)`: the lines joined with a newline between
consecutive elements. -/
def joinLines : List String → String
  | [] => ""
  | [l] => l
  | l :: rest => l ++ "\n" ++ joinLines rest

/-- The `for col in numeric_cols` loop of `analyze_data` (app.py lines
121-130), threading the `analysis` and `insights` accumulators. -/
def numericLoop : List Column → List String × List String → List String × List String
  | [], acc => acc
  | c :: rest, (an, ins) =>
      numericLoop rest
        (an ++ [totalLine c, averageLine c],
         if insightWorthy c then ins ++ [totalInsight c, averageInsight c]
         else ins)

/-- `analyze_data` from app.py lines 105-157.  The guarded
`categorical_cols[0]` / `numeric_cols[0]` indexing (only reached when both
filtered lists are nonempty) is rendered as a match on both lists; the
`except` arm is unreachable because no statement in the `try` block raises
(pandas sum/mean of an empty column produce 0 and NaN, not errors). -/
def analyze_data (df : Frame) : AnalysisResult :=
  let numeric_cols := df.cols.filter (fun c => isNumericDtype c.dtype)
  let categorical_cols := df.cols.filter (fun c => isObjectDtype c.dtype)
  let header := "Analysis of " ++ Nat.repr df.nrows ++ " records:"
  let acc := numericLoop numeric_cols ([header], [])
  let visualizations :=
    match categorical_cols, numeric_cols with
    | c0 :: _, n0 :: _ =>
        [{ type := "bar", x := c0.name, y := n0.name,
           title := n0.name ++ " by " ++ c0.name },
         { type := "pie", x := c0.name, y := n0.name,
           title := "Distribution of " ++ n0.name ++ " by " ++ c0.name }]
    | _, _ => []
  { analysis := joinLines acc.1
    insights := acc.2
    visualizations := visualizations }

/-- The four Plotly figure shapes `create_visualization` can build: `pie`
binds `names`/`values` where the other three bind `x`/`y`. -/
inductive Figure
  | bar (x y title : String)
  | line (x y title : String)
  | scatter (x y title : String)
  | pie (names values title : String)
  deriving DecidableEq, Repr

/-- `create_visualization` from app.py lines 159-176: dispatch on the
lowercased `type` field of the configuration; an unrecognised type returns
`None`.  The dataframe argument only supplies the plotted data, which the
figure model does not retain. -/
def create_visualization (_df : Frame) (viz_config : VizSpec) : Option Figure :=
  let chart_type := lowerStr viz_config.type
  if chart_type = "bar" then
    some (Figure.bar viz_config.x viz_config.y viz_config.title)
  else if chart_type = "line" then
    some (Figure.line viz_config.x viz_config.y viz_config.title)
  else if chart_type = "scatter" then
    some (Figure.scatter viz_config.x viz_config.y viz_config.title)
  else if chart_type = "pie" then
    some (Figure.pie viz_config.x viz_config.y viz_config.title)
  else
    none

/-- The empty result table (0 rows) with one numeric column named
"amount". -/
def emptyAmountFrame : Frame :=
  { nrows := 0,
    cols := [{ name := "amount", dtype := Dtype.float64, values := [] }] }

/-- C1, counterexample: the question "top sales by region" contains "top",
contains neither "product" nor "products", and contains "sales by region",
yet `generate_sql_query` returns `none` — not the sales-by-region template
and not any template. -/
theorem top_sales_by_region_yields_none :
    strContains (lowerStr "top sales by region") "top" = true ∧
    strContains (lowerStr "top sales by region") "product" = false ∧
    strContains (lowerStr "top sales by region") "products" = false ∧
    strContains (lowerStr "top sales by region") "sales by region" = true ∧
    generate_sql_query "top sales by region" = none := by
  decide

/-- C1, amended: a question whose lowercase form contains "top" or "best"
but neither "products" nor "product" makes `generate_sql_query` return
`none` (Python falls off the end of the function), regardless of any other
keywords such as "sales by region"; the `elif` chain is not evaluated. -/
theorem top_without_product_returns_none (q : String)
    (h : strContains (lowerStr q) "top" = true ∨
      strContains (lowerStr q) "best" = true)
    (hps : strContains (lowerStr q) "products" = false)
    (hp : strContains (lowerStr q) "product" = false) :
    generate_sql_query q = none := by
  unfold generate_sql_query
  rcases h with h | h <;> simp [h, hps, hp]

/-- Witness for `top_without_product_returns_none` at the concrete question
"top sales by region". -/
theorem top_without_product_returns_none_witness :
    generate_sql_query "top sales by region" = none :=
  top_without_product_returns_none "top sales by region"
    (Or.inl (by decide)) (by decide) (by decide)

/-- C2, counterexample: on the input "top" the router returns `none`,
which is not one of the five templates — the router is not total. -/
theorem router_not_total_on_top :
    generate_sql_query "top" = none ∧
    ((sqlTemplates.map some).contains (generate_sql_query "top")) = false := by
  decide

/-- C2, amended: `generate_sql_query` returns either `none` or one of the
five hardcoded templates, and it returns `none` exactly when the lowercased
question contains "top" or "best" but neither "products" nor "product". -/
theorem router_range_characterization (q : String) :
    (generate_sql_query q = none ∨
      ∃ t ∈ sqlTemplates, generate_sql_query q = some t) ∧
    (generate_sql_query q = none ↔
      (strContains (lowerStr q) "top" = true ∨
        strContains (lowerStr q) "best" = true) ∧
      strContains (lowerStr q) "products" = false ∧
      strContains (lowerStr q) "product" = false) := by
  simp only [generate_sql_query, sqlTemplates]
  split_ifs with h1 h2 h3 h4 h5 <;>
    simp_all [Bool.or_eq_true, Bool.and_eq_true]
  intro hpf
  rcases h2 with h2 | h2 <;> simp_all

/-- Witness for `router_range_characterization` at the empty question. -/
theorem router_range_characterization_witness :
    generate_sql_query "" = none ∨
      ∃ t ∈ sqlTemplates, generate_sql_query "" = some t :=
  (router_range_characterization "").1

/-- C3: a question whose lowercase form contains "top" (or, equally,
"best") and contains "product" selects the top-products template. -/
theorem top_or_best_product_selects_top_products (q : String)
    (h : strContains (lowerStr q) "top" = true ∨
      strContains (lowerStr q) "best" = true)
    (hp : strContains (lowerStr q) "product" = true) :
    generate_sql_query q = some topProductsSQL := by
  unfold generate_sql_query
  rcases h with h | h <;> simp [h, hp]

/-- Witness for `top_or_best_product_selects_top_products` at the concrete
question "best product". -/
theorem top_or_best_product_selects_top_products_witness :
    generate_sql_query "best product" = some topProductsSQL :=
  top_or_best_product_selects_top_products "best product"
    (Or.inr (by decide)) (by decide)

/-- C9: whenever `generate_sql_query` returns SQL text, that text is one of
the five closed, hardcoded template strings; the question is never
interpolated, so any two questions that select the same template receive
byte-identical SQL. -/
theorem sql_output_is_fixed_template (q s : String)
    (h : generate_sql_query q = some s) :
    s ∈ sqlTemplates := by
  simp only [generate_sql_query] at h
  split_ifs at h <;> simp_all [sqlTemplates]

/-- Witness for `sql_output_is_fixed_template` at the empty question, which
selects the default template. -/
theorem sql_output_is_fixed_template_witness :
    defaultSQL ∈ sqlTemplates :=
  sql_output_is_fixed_template "" defaultSQL (by decide)

/-- Closed form of the `analysis` accumulator of the numeric-column loop:
the initial lines followed by a total line and an average line for every
column, in order. -/
theorem numericLoop_analysis (l : List Column) (an ins : List String) :
    (numericLoop l (an, ins)).1 =
      an ++ l.flatMap (fun c => [totalLine c, averageLine c]) := by
  induction l generalizing an ins with
  | nil => simp [numericLoop]
  | cons c rest ih => simp [numericLoop, ih, List.append_assoc]

/-- Closed form of the `insights` accumulator of the numeric-column loop:
the initial insights followed by a total insight and an average insight for
every column whose name passes the amount/sales test, in order. -/
theorem numericLoop_insights (l : List Column) (an ins : List String) :
    (numericLoop l (an, ins)).2 =
      ins ++ (l.filter insightWorthy).flatMap
        (fun c => [totalInsight c, averageInsight c]) := by
  induction l generalizing an ins with
  | nil => simp [numericLoop]
  | cons c rest ih =>
      by_cases h : insightWorthy c <;>
        simp [numericLoop, h, ih, List.filter_cons, List.append_assoc]

/-- C4: the summary is the newline-join of the record-count header followed,
for each numeric column in column order, by its total line and its average
line (both carrying the `{:,.2f}` formatting); and the insights list holds
exactly a total insight and an average insight for each numeric column whose
lowercased name contains "amount" or "sales", in the same order. -/
theorem analysis_summary_structure (df : Frame) :
    (analyze_data df).analysis =
      joinLines
        (("Analysis of " ++ Nat.repr df.nrows ++ " records:") ::
          (df.cols.filter (fun c => isNumericDtype c.dtype)).flatMap
            (fun c => [totalLine c, averageLine c])) ∧
    (analyze_data df).insights =
      ((df.cols.filter (fun c => isNumericDtype c.dtype)).filter
          insightWorthy).flatMap
        (fun c => [totalInsight c, averageInsight c]) := by
  constructor
  · simp [analyze_data, numericLoop_analysis]
  · simp [analyze_data, numericLoop_insights]

/-- C5, counterexample: on the empty table with the single numeric column
`amount`, the summary's average line reads "- Average amount: nan" (pandas
mean of an empty column is NaN) — the average is neither 0 nor a "no data"
flag. -/
theorem empty_amount_average_is_nan :
    (analyze_data emptyAmountFrame).analysis =
      "Analysis of 0 records:\n- Total amount: 0.00\n- Average amount: nan" ∧
    strContains (analyze_data emptyAmountFrame).analysis "no data" = false := by
  decide

/-- C5, amended: `analyze_data` on an empty table with one numeric column
`amount` does not fail: the summary states 0 records, the total line shows
0.00, and the average line is still emitted — but it shows "nan", not 0 and
not a "no data" flag. -/
theorem analyze_empty_amount_frame_eval :
    analyze_data emptyAmountFrame =
      { analysis := "Analysis of 0 records:\n- Total amount: 0.00\n- Average amount: nan",
        insights := ["Total amount is 0.00", "Average amount per record is nan"],
        visualizations := [] } := by
  decide

/-- The head of a filtered list is the first element satisfying the
predicate. -/
theorem head_filter_eq_find {α : Type} (p : α → Bool) (l : List α) :
    (l.filter p).head? = l.find? p := by
  induction l with
  | nil => rfl
  | cons a t ih =>
      by_cases h : p a <;>
        simp [List.filter_cons, List.find?_cons, h, ih]

/-- C6: the recommended chart specs are exactly two — a bar spec then a pie
spec, both bound to the first categorical column and the first numeric
column in column order, titled from those column names — when the table has
at least one of each, and exactly zero specs otherwise. -/
theorem visualization_recommendation_policy (df : Frame) :
    (analyze_data df).visualizations =
      match df.cols.find? (fun c => isObjectDtype c.dtype),
          df.cols.find? (fun c => isNumericDtype c.dtype) with
      | some c0, some n0 =>
          [{ type := "bar", x := c0.name, y := n0.name,
             title := n0.name ++ " by " ++ c0.name },
           { type := "pie", x := c0.name, y := n0.name,
             title := "Distribution of " ++ n0.name ++ " by " ++ c0.name }]
      | _, _ => [] := by
  rw [← head_filter_eq_find, ← head_filter_eq_find]
  simp only [analyze_data]
  cases hc : df.cols.filter (fun c => isObjectDtype c.dtype) <;>
    cases hn : df.cols.filter (fun c => isNumericDtype c.dtype) <;>
      simp [hc, hn]

/-- C7: `create_visualization` returns `None` for every configuration whose
lowercased `type` is none of bar/line/scatter/pie, and dispatches each of the
four known types to the corresponding figure constructor, `pie` binding the
`x` column to category labels (`names`) and the `y` column to slice values
(`values`). -/
theorem create_visualization_dispatch (df : Frame) (viz : VizSpec) :
    (lowerStr viz.type ≠ "bar" → lowerStr viz.type ≠ "line" →
      lowerStr viz.type ≠ "scatter" → lowerStr viz.type ≠ "pie" →
      create_visualization df viz = none) ∧
    (lowerStr viz.type = "bar" →
      create_visualization df viz = some (Figure.bar viz.x viz.y viz.title)) ∧
    (lowerStr viz.type = "line" →
      create_visualization df viz = some (Figure.line viz.x viz.y viz.title)) ∧
    (lowerStr viz.type = "scatter" →
      create_visualization df viz =
        some (Figure.scatter viz.x viz.y viz.title)) ∧
    (lowerStr viz.type = "pie" →
      create_visualization df viz = some (Figure.pie viz.x viz.y viz.title)) := by
  refine ⟨fun h1 h2 h3 h4 => ?_, fun h => ?_, fun h => ?_, fun h => ?_,
    fun h => ?_⟩
  · simp [create_visualization, h1, h2, h3, h4]
  · simp [create_visualization, h]
  · simp [create_visualization, h]
  · simp [create_visualization, h]
  · simp [create_visualization, h]

/-- Witness for `create_visualization_dispatch`: the unknown chart kind
"donut" yields `None`. -/
theorem create_visualization_dispatch_witness :
    create_visualization { nrows := 0, cols := [] }
      { type := "donut", x := "a", y := "b", title := "t" } = none :=
  (create_visualization_dispatch { nrows := 0, cols := [] }
      { type := "donut", x := "a", y := "b", title := "t" }).1
    (by decide) (by decide) (by decide) (by decide)

/-- If every element accepted by `q` is accepted by `r`, filtering by `r`
first does not change the result of filtering by `q`. -/
theorem filter_filter_of_imp {α : Type} (q r : α → Bool)
    (h : ∀ c, q c = true → r c = true) (l : List α) :
    (l.filter r).filter q = l.filter q := by
  induction l with
  | nil => rfl
  | cons a t ih =>
      by_cases hr : r a = true
      · by_cases hq : q a = true <;> simp [List.filter_cons, hr, hq, ih]
      · have hq : q a = false := by
          cases hqa : q a
          · rfl
          · exact absurd (h a hqa) hr
        simp [List.filter_cons, hr, hq, ih]

/-- A char list is a starting segment of itself followed by anything. -/
theorem charsStart_append (p t : List Char) : charsStart p (p ++ t) = true := by
  induction p with
  | nil => rfl
  | cons c cs ih => simp [charsStart, ih]

/-- The empty pattern occurs in every char list. -/
theorem charsHasSub_nil_pat (s : List Char) : charsHasSub [] s = true := by
  cases s <;> simp [charsHasSub, charsStart]

/-- A pattern occurs in any char list that contains it contiguously. -/
theorem charsHasSub_split (p pre t : List Char) :
    charsHasSub p (pre ++ (p ++ t)) = true := by
  induction pre with
  | nil =>
      cases p with
      | nil => exact charsHasSub_nil_pat _
      | cons c cs =>
          have h := charsStart_append (c :: cs) t
          simp only [List.nil_append, List.cons_append, charsHasSub,
            Bool.or_eq_true]
          exact Or.inl h
  | cons a pre ih =>
      simp only [List.cons_append, charsHasSub, Bool.or_eq_true]
      exact Or.inr ih

/-- Python's `m in s` succeeds whenever `s` is built as `x + m + y`. -/
theorem strContains_of_split (x m y : String) :
    strContains (x ++ (m ++ y)) m = true := by
  unfold strContains
  have hx : (x ++ (m ++ y)).toList = x.toList ++ (m.toList ++ y.toList) := by
    simp [String.toList, String.data_append]
  rw [hx]
  exact charsHasSub_split m.toList x.toList y.toList

/-- Any member of a line list occurs contiguously in the joined string. -/
theorem joinLines_mem_split (l : String) (lines : List String)
    (h : l ∈ lines) :
    ∃ x y, joinLines lines = x ++ (l ++ y) := by
  induction lines with
  | nil => cases h
  | cons a rest ih =>
      cases rest with
      | nil =>
          have hl : l = a := by simpa using h
          subst hl
          exact ⟨"", "", by simp [joinLines]⟩
      | cons b t =>
          rcases List.mem_cons.mp h with rfl | hmem
          · exact ⟨"", "\n" ++ joinLines (b :: t), by
              simp [joinLines, String.append_assoc]⟩
          · rcases ih hmem with ⟨x, y, hxy⟩
            exact ⟨a ++ "\n" ++ x, y, by
              simp [joinLines, hxy, String.append_assoc]⟩

/-- C8: every insight string restates a fact already present in the summary:
it is a total (resp. average) insight for some column name and formatted
value, and the summary text contains the total (resp. average) line carrying
that same name and the same value. -/
theorem insights_restate_summary_facts (df : Frame) (s : String)
    (hs : s ∈ (analyze_data df).insights) :
    ∃ name val,
      (s = "Total " ++ name ++ " is " ++ val ∧
        strContains (analyze_data df).analysis
          ("- Total " ++ name ++ ": " ++ val) = true) ∨
      (s = "Average " ++ name ++ " per record is " ++ val ∧
        strContains (analyze_data df).analysis
          ("- Average " ++ name ++ ": " ++ val) = true) := by
  have hins : (analyze_data df).insights =
      ((df.cols.filter (fun c => isNumericDtype c.dtype)).filter
          insightWorthy).flatMap
        (fun c => [totalInsight c, averageInsight c]) := by
    simp [analyze_data, numericLoop_insights]
  have han : (analyze_data df).analysis =
      joinLines
        (("Analysis of " ++ Nat.repr df.nrows ++ " records:") ::
          (df.cols.filter (fun c => isNumericDtype c.dtype)).flatMap
            (fun c => [totalLine c, averageLine c])) := by
    simp [analyze_data, numericLoop_analysis]
  rw [hins] at hs
  rcases List.mem_flatMap.mp hs with ⟨c, hc, hsc⟩
  have hcn : c ∈ df.cols.filter (fun c => isNumericDtype c.dtype) :=
    (List.mem_filter.mp hc).1
  have hlineT : totalLine c ∈
      ("Analysis of " ++ Nat.repr df.nrows ++ " records:") ::
        (df.cols.filter (fun c => isNumericDtype c.dtype)).flatMap
          (fun c => [totalLine c, averageLine c]) :=
    List.mem_cons_of_mem _ (List.mem_flatMap.mpr ⟨c, hcn, by simp⟩)
  have hlineA : averageLine c ∈
      ("Analysis of " ++ Nat.repr df.nrows ++ " records:") ::
        (df.cols.filter (fun c => isNumericDtype c.dtype)).flatMap
          (fun c => [totalLine c, averageLine c]) :=
    List.mem_cons_of_mem _ (List.mem_flatMap.mpr ⟨c, hcn, by simp⟩)
  simp only [List.mem_cons, List.mem_singleton] at hsc
  rcases hsc with rfl | rfl | h
  · refine ⟨c.name, fmtComma2 c.values.sum, Or.inl ⟨rfl, ?_⟩⟩
    rw [han]
    rcases joinLines_mem_split _ _ hlineT with ⟨x, y, hxy⟩
    rw [hxy]
    exact strContains_of_split x (totalLine c) y
  · refine ⟨c.name, fmtMean c.values, Or.inr ⟨rfl, ?_⟩⟩
    rw [han]
    rcases joinLines_mem_split _ _ hlineA with ⟨x, y, hxy⟩
    rw [hxy]
    exact strContains_of_split x (averageLine c) y
  · cases h

/-- Witness for `insights_restate_summary_facts`: the insight
"Total amount is 0.00" of the empty amount table restates the summary's
total line. -/
theorem insights_restate_summary_facts_witness :
    ∃ name val,
      ("Total amount is 0.00" = "Total " ++ name ++ " is " ++ val ∧
        strContains (analyze_data emptyAmountFrame).analysis
          ("- Total " ++ name ++ ": " ++ val) = true) ∨
      ("Total amount is 0.00" = "Average " ++ name ++ " per record is " ++ val ∧
        strContains (analyze_data emptyAmountFrame).analysis
          ("- Average " ++ name ++ ": " ++ val) = true) :=
  insights_restate_summary_facts emptyAmountFrame "Total amount is 0.00"
    (by decide)

/-- C10: a column whose dtype is neither numeric (`int64`/`float64`) nor
categorical (`object`) — a date or boolean column, say — is invisible to the
analyzer: dropping every such column changes nothing in the summary, the
insights, or the recommended chart specs. -/
theorem other_dtypes_invisible (df : Frame) :
    analyze_data df =
      analyze_data
        { nrows := df.nrows,
          cols := df.cols.filter
            (fun c => isNumericDtype c.dtype || isObjectDtype c.dtype) } := by
  simp only [analyze_data]
  rw [filter_filter_of_imp (fun c => isNumericDtype c.dtype)
        (fun c => isNumericDtype c.dtype || isObjectDtype c.dtype)
        (fun c h => by simp [h]) df.cols,
      filter_filter_of_imp (fun c => isObjectDtype c.dtype)
        (fun c => isNumericDtype c.dtype || isObjectDtype c.dtype)
        (fun c h => by simp [h]) df.cols]
